import Mathlib

/-!
Shallow embedding of `src-tauri/src/volume_controller.rs` of volume-master.

Modelling conventions:
* `f32` volume scalars are modelled as rationals (`ℚ`); the clamp/min/max
  step arithmetic of the source is exact over `ℚ`.
* The mpsc command channel is modelled by the list of commands the worker
  thread receives, in order; channel closure (all senders dropped) is the
  end of the list.
* Each native COM call on the endpoint may succeed or fail; the `schedule`
  field of `Endpoint` is the oracle of outcomes for the successive native
  calls (`none` = success, `some e` = failure whose Debug rendering is `e`);
  an exhausted schedule means success.
* Caller-facing errors are a tagged type `ControlError`; the source uses the
  string messages reproduced exactly by `ControlError.message`.
-/

/-- Error taxonomy surfaced by `send_command` and the worker replies.
`notInitialized`, `sendFailed`, `recvFailed` are produced by `send_command`
(`volume_controller.rs:160-171`); `nativeGet`/`nativeSet` are the worker's
`map_err` wrappings of native failures, carrying the Debug text of the
native error. -/
inductive ControlError where
  | notInitialized
  | sendFailed
  | recvFailed
  | nativeGet (msg : String)
  | nativeSet (msg : String)
deriving DecidableEq

/-- Exact source strings of each `ControlError` case. -/
def ControlError.message : ControlError → String
  | .notInitialized => "Volume controller not initialized"
  | .sendFailed => "Failed to send command to volume controller"
  | .recvFailed => "Failed to receive response from volume controller"
  | .nativeGet m => "Failed to get volume: " ++ m
  | .nativeSet m => "Failed to set volume: " ++ m

/-- Value carried on a per-command reply channel: `Result<f32, String>` in
the source, with the worker's error strings represented by the tagged
`nativeGet`/`nativeSet` cases. -/
abbrev Reply := Except ControlError ℚ

instance : DecidableEq Reply := fun a b =>
  match a, b with
  | .ok x, .ok y => decidable_of_iff (x = y) (by simp)
  | .error x, .error y => decidable_of_iff (x = y) (by simp)
  | .ok _, .error _ => .isFalse (by simp)
  | .error _, .ok _ => .isFalse (by simp)

/-- Mirrors `enum VolumeCommand` (`volume_controller.rs:23-29`); the
one-shot reply channel carried by each non-Shutdown variant is implicit in
the worker model (one `Reply` per processed command). -/
inductive VolumeCommand where
  | getVolume
  | setVolume (level : ℚ)
  | volumeUp
  | volumeDown
  | shutdown
deriving DecidableEq

/-- The native audio endpoint (`IAudioEndpointVolume`): its master volume
scalar plus the outcome oracle for the successive native calls made on it. -/
structure Endpoint where
  level : ℚ
  schedule : List (Option String)
deriving DecidableEq

/-- `endpoint.GetMasterVolumeLevelScalar()`: reads the native master volume
scalar, or fails according to the outcome oracle. -/
def getMasterVolumeLevelScalar (ep : Endpoint) : Except String ℚ × Endpoint :=
  match ep.schedule with
  | [] => (.ok ep.level, ep)
  | none :: rest => (.ok ep.level, { ep with schedule := rest })
  | some e :: rest => (.error e, { ep with schedule := rest })

/-- `endpoint.SetMasterVolumeLevelScalar(l, null)`: writes the native master
volume scalar, or fails (leaving the level unchanged) according to the
outcome oracle. -/
def setMasterVolumeLevelScalar (ep : Endpoint) (l : ℚ) : Except String Unit × Endpoint :=
  match ep.schedule with
  | [] => (.ok (), { ep with level := l })
  | none :: rest => (.ok (), { level := l, schedule := rest })
  | some e :: rest => (.error e, { ep with schedule := rest })

/-- Rust `f32::clamp(self, min, max)` for non-NaN inputs: `min` if below,
`max` if above, `self` otherwise. -/
def rustClamp (x lo hi : ℚ) : ℚ :=
  if x < lo then lo else if x > hi then hi else x

/-- One iteration of the worker's message loop
(`volume_controller.rs:75-121`): the endpoint after the native calls, the
reply sent on the command's reply channel (`none` only for `Shutdown`,
which replies nothing), and whether the loop continues (`false` only for
`Shutdown`, which breaks). -/
def processCommand (ep : Endpoint) : VolumeCommand → Endpoint × Option Reply × Bool
  | .getVolume =>
    let (r, ep') := getMasterVolumeLevelScalar ep
    (ep', some (r.mapError .nativeGet), true)
  | .setVolume level =>
    let clamped := rustClamp level 0 1
    let (r, ep') := setMasterVolumeLevelScalar ep clamped
    (ep', some ((r.map fun _ => clamped).mapError .nativeSet), true)
  | .volumeUp =>
    let (r, ep') := getMasterVolumeLevelScalar ep
    match r with
    | .ok current =>
      let newLevel := min (current + 0.05) 1
      let (r2, ep'') := setMasterVolumeLevelScalar ep' newLevel
      match r2 with
      | .ok _ => (ep'', some (.ok newLevel), true)
      | .error e => (ep'', some (.error (.nativeSet e)), true)
    | .error e => (ep', some (.error (.nativeGet e)), true)
  | .volumeDown =>
    let (r, ep') := getMasterVolumeLevelScalar ep
    match r with
    | .ok current =>
      let newLevel := max (current - 0.05) 0
      let (r2, ep'') := setMasterVolumeLevelScalar ep' newLevel
      match r2 with
      | .ok _ => (ep'', some (.ok newLevel), true)
      | .error e => (ep'', some (.error (.nativeSet e)), true)
    | .error e => (ep', some (.error (.nativeGet e)), true)
  | .shutdown => (ep, none, false)

/-- The worker's message loop `while let Ok(cmd) = rx.recv() { ... }` over
the sequence of commands the channel delivers: final endpoint state and the
list of replies sent, in order. The loop ends at the end of the list
(channel closed: all senders dropped) or at the first `Shutdown`. -/
def workerLoop : Endpoint → List VolumeCommand → Endpoint × List Reply
  | ep, [] => (ep, [])
  | ep, cmd :: rest =>
    match processCommand ep cmd with
    | (ep', reply, true) =>
      let r := workerLoop ep' rest
      (r.1, reply.toList ++ r.2)
    | (ep', reply, false) => (ep', reply.toList)

/-- Observable outcome of one run of the worker thread. `comInitOk` records
whether `CoInitializeEx` succeeded; `endpointAcquired` whether
`get_audio_endpoint()` succeeded (the acquired COM interface is dropped by
Rust ownership when the thread returns); `coUninitCalls` counts the
`CoUninitialize()` calls made before the thread terminates; `enteredLoop`
whether the message loop was entered. -/
structure WorkerRun where
  comInitOk : Bool
  endpointAcquired : Bool
  coUninitCalls : Nat
  enteredLoop : Bool
  endpoint : Endpoint
  replies : List Reply
deriving DecidableEq

/-- The Windows worker thread `volume_worker_thread`
(`volume_controller.rs:53-126`). `comOk` is the outcome of
`CoInitializeEx`, `epOk` the outcome of `get_audio_endpoint()`, `ep` the
native endpoint reached on success, `cmds` the commands the channel
delivers. On `CoInitializeEx` failure the thread returns at once (no
`CoUninitialize`); on endpoint failure it calls `CoUninitialize` once and
returns; otherwise it runs the loop and calls `CoUninitialize` once after
the loop exits. -/
def volume_worker_thread (comOk epOk : Bool) (ep : Endpoint)
    (cmds : List VolumeCommand) : WorkerRun :=
  if comOk then
    if epOk then
      let r := workerLoop ep cmds
      ⟨true, true, 1, true, r.1, r.2⟩
    else ⟨true, false, 1, false, ep, []⟩
  else ⟨false, false, 0, false, ep, []⟩

/-- Observable outcome of the non-Windows stub worker. -/
structure StubRun where
  logged : String
  replies : List Reply
  nativeCalls : Nat
deriving DecidableEq

/-- The non-Windows stub `volume_worker_thread`
(`volume_controller.rs:150-153`): it logs one line to stderr and returns
immediately — it never receives a command, never replies, and makes no
native call (the receiver is dropped when it returns). -/
def volume_worker_thread_nonWindows (_cmds : List VolumeCommand) : StubRun :=
  ⟨"[VolumeController] Volume control is only supported on Windows", [], 0⟩

/-- Process-wide facade state. `sender` is the content of the global
`VOLUME_CONTROLLER: Lazy<Mutex<Option<Sender<VolumeCommand>>>>`;
`receiverAlive` whether the worker thread still holds the receiving half
(true from spawn until the thread returns); `channelsCreated` and
`workersSpawned` count the `mpsc::channel()` and `thread::spawn` calls. -/
structure FacadeState where
  sender : Option Unit
  receiverAlive : Bool
  channelsCreated : Nat
  workersSpawned : Nat
deriving DecidableEq

/-- State at process start: `VOLUME_CONTROLLER` holds `None`, nothing
created. -/
def initialState : FacadeState := ⟨none, false, 0, 0⟩

/-- `init_volume_controller` (`volume_controller.rs:36-49`): under the
lock, return early if a sender is already stored; otherwise create the
channel, store the sender, and spawn the worker thread on the receiver. -/
def init_volume_controller (s : FacadeState) : FacadeState :=
  if s.sender.isSome then s
  else ⟨some (), true, s.channelsCreated + 1, s.workersSpawned + 1⟩

/-- The worker thread returning, for any reason (`CoInitializeEx` failure,
endpoint-acquisition failure, processing `Shutdown`, or channel closure):
the receiving half is dropped; the global `VOLUME_CONTROLLER` is untouched. -/
def workerExited (s : FacadeState) : FacadeState :=
  { s with receiverAlive := false }

/-- `shutdown_volume_controller` (`volume_controller.rs:197-203`): under
the lock, if a sender is stored, send `Shutdown` and ignore the result. It
mutates nothing: the returned state is unchanged, and the `Bool` records
whether a `Shutdown` command was sent into the channel. -/
def shutdown_volume_controller (s : FacadeState) : FacadeState × Bool :=
  (s, s.sender.isSome)

/-- `send_command` (`volume_controller.rs:156-172`). `workerReply` models
what arrives on this command's one-shot reply channel: `some r` if the
worker sent reply `r`, `none` if the reply channel was dropped before any
reply (the worker exited with the command still queued). If no sender is
stored, fail with the not-initialized error; if the receiving half is gone,
`tx.send` fails; if no reply arrives, `recv` fails; otherwise return the
worker's reply verbatim. -/
def send_command (s : FacadeState) (workerReply : Option Reply) : Except ControlError ℚ :=
  match s.sender with
  | none => .error .notInitialized
  | some _ =>
    if s.receiverAlive then
      match workerReply with
      | some r => r
      | none => .error .recvFailed
    else .error .sendFailed

/-- `get_volume` (`volume_controller.rs:175-177`): `send_command` with a
`GetVolume` command; `workerReply` is the worker's reply to it. -/
def get_volume (s : FacadeState) (workerReply : Option Reply) : Except ControlError ℚ :=
  send_command s workerReply

/-- `set_volume` (`volume_controller.rs:181-183`): `send_command` with a
`SetVolume(level)` command. -/
def set_volume (s : FacadeState) (_level : ℚ) (workerReply : Option Reply) :
    Except ControlError ℚ :=
  send_command s workerReply

/-- `volume_up` (`volume_controller.rs:186-188`): `send_command` with a
`VolumeUp` command. -/
def volume_up (s : FacadeState) (workerReply : Option Reply) : Except ControlError ℚ :=
  send_command s workerReply

/-- `volume_down` (`volume_controller.rs:191-193`): `send_command` with a
`VolumeDown` command. -/
def volume_down (s : FacadeState) (workerReply : Option Reply) : Except ControlError ℚ :=
  send_command s workerReply

/-- Specification-side counting helper: the number of commands of a
delivered sequence that the worker's loop processes and replies to — those
strictly before the first `Shutdown`. -/
def repliesExpected : List VolumeCommand → Nat
  | [] => 0
  | .shutdown :: _ => 0
  | _ :: rest => repliesExpected rest + 1

/-- Specification-side predicate: the replies the worker can actually send
(`Ok`, or a wrapped native get/set failure) — never one of the
`send_command` channel errors. -/
def workerProducible : Reply → Bool
  | .ok _ => true
  | .error (.nativeGet _) => true
  | .error (.nativeSet _) => true
  | .error _ => false

theorem rustClamp_eq_min_max (L : ℚ) : rustClamp L 0 1 = min (max L 0) 1 := by
  unfold rustClamp
  split_ifs with h1 h2
  · rw [max_eq_right h1.le, min_eq_left]
    norm_num
  · rw [max_eq_left, min_eq_right h2.le]
    linarith
  · rw [max_eq_left, min_eq_left] <;> push_neg at h1 h2 <;> linarith

theorem rustClamp_mem (L : ℚ) : 0 ≤ rustClamp L 0 1 ∧ rustClamp L 0 1 ≤ 1 := by
  unfold rustClamp
  split_ifs with h1 h2
  · exact ⟨le_refl 0, by norm_num⟩
  · exact ⟨by norm_num, le_refl 1⟩
  · push_neg at h1 h2
    exact ⟨h1, h2⟩

/-- C4 counterexample: the state reached after `init` followed by the worker
thread exiting (for instance after its COM initialization failed, or after
processing `Shutdown`) has no Worker Context running, yet a further
`init_volume_controller` call is a no-op: it creates no new channel and
spawns no new worker, contradicting the claim that init creates the channel
and starts the worker whenever no Worker Context is currently running. -/
theorem init_when_worker_dead_cx :
    (workerExited (init_volume_controller initialState)).receiverAlive = false ∧
    init_volume_controller (workerExited (init_volume_controller initialState)) =
      workerExited (init_volume_controller initialState) ∧
    (init_volume_controller (workerExited (init_volume_controller initialState))).channelsCreated
      = 1 ∧
    (init_volume_controller (workerExited (init_volume_controller initialState))).workersSpawned
      = 1 := by
  decide

/-- C4 (amended): `init_volume_controller` is idempotent; a call while a
sender is already stored in the process-wide state is a no-op, so calling
init twice creates exactly one channel and spawns exactly one worker; and
whenever no sending half is stored (rather than: whenever no Worker Context
is running), init creates the channel, stores the sender and spawns the
worker bound to the receiver. -/
theorem init_idempotent_amended :
    (∀ s : FacadeState,
      init_volume_controller (init_volume_controller s) = init_volume_controller s) ∧
    (∀ s : FacadeState, s.sender.isSome = true → init_volume_controller s = s) ∧
    (∀ s : FacadeState, s.sender = none →
      (init_volume_controller s).sender = some () ∧
      (init_volume_controller s).receiverAlive = true ∧
      (init_volume_controller s).channelsCreated = s.channelsCreated + 1 ∧
      (init_volume_controller s).workersSpawned = s.workersSpawned + 1) ∧
    (init_volume_controller (init_volume_controller initialState)).channelsCreated = 1 ∧
    (init_volume_controller (init_volume_controller initialState)).workersSpawned = 1 := by
  refine ⟨?_, ?_, ?_, by decide, by decide⟩
  · intro s
    unfold init_volume_controller
    rcases h : s.sender with _ | u <;> simp [h]
  · intro s h
    unfold init_volume_controller
    simp [h]
  · intro s h
    unfold init_volume_controller
    simp [h]

theorem init_idempotent_amended_witness :
    ((⟨some (), true, 1, 1⟩ : FacadeState).sender.isSome = true ∧
      init_volume_controller ⟨some (), true, 1, 1⟩ = ⟨some (), true, 1, 1⟩) ∧
    ((initialState.sender = none) ∧
      (init_volume_controller initialState).sender = some () ∧
      (init_volume_controller initialState).receiverAlive = true ∧
      (init_volume_controller initialState).channelsCreated = initialState.channelsCreated + 1 ∧
      (init_volume_controller initialState).workersSpawned = initialState.workersSpawned + 1) :=
  ⟨⟨by decide, init_idempotent_amended.2.1 ⟨some (), true, 1, 1⟩ (by decide)⟩,
   ⟨by decide, init_idempotent_amended.2.2.1 initialState (by decide)⟩⟩

/-- C5 counterexample: after `init` and `shutdown_volume_controller`, the
process-wide state still holds the sending half (it does not become
absent), and once the worker has processed the `Shutdown` and exited, a
subsequent `get_volume` fails with the send-failed channel error, not with
the not-initialized error the claim requires. -/
theorem shutdown_keeps_sender_cx :
    (shutdown_volume_controller (init_volume_controller initialState)).1.sender = some () ∧
    get_volume
      (workerExited (shutdown_volume_controller (init_volume_controller initialState)).1) none =
      .error .sendFailed ∧
    ControlError.sendFailed ≠ ControlError.notInitialized := by
  decide

/-- C5 (amended): `shutdown_volume_controller` leaves the stored sending
half in place (the process-wide state is not cleared); it sends `Shutdown`,
and once the worker has processed it and exited (dropping the receiving
half), every subsequent `get_volume`/`set_volume`/`volume_up`/`volume_down`
call fails with the send-failed channel error — never the not-initialized
error, and never a silent success. -/
theorem post_shutdown_fails_amended (s : FacadeState) (h : s.sender.isSome = true) :
    (shutdown_volume_controller s).1.sender = s.sender ∧
    (shutdown_volume_controller s).2 = true ∧
    ∀ (reply : Option Reply) (L : ℚ),
      get_volume (workerExited (shutdown_volume_controller s).1) reply =
        .error .sendFailed ∧
      set_volume (workerExited (shutdown_volume_controller s).1) L reply =
        .error .sendFailed ∧
      volume_up (workerExited (shutdown_volume_controller s).1) reply =
        .error .sendFailed ∧
      volume_down (workerExited (shutdown_volume_controller s).1) reply =
        .error .sendFailed := by
  rcases hs : s.sender with _ | u
  · rw [hs] at h; cases h
  · refine ⟨hs, by simp [shutdown_volume_controller, hs], ?_⟩
    intro reply L
    simp [get_volume, set_volume, volume_up, volume_down, send_command,
      shutdown_volume_controller, workerExited, hs]

theorem post_shutdown_fails_amended_witness :
    ((⟨some (), true, 1, 1⟩ : FacadeState).sender.isSome = true) ∧
    ((shutdown_volume_controller ⟨some (), true, 1, 1⟩).1.sender =
        (⟨some (), true, 1, 1⟩ : FacadeState).sender ∧
      (shutdown_volume_controller ⟨some (), true, 1, 1⟩).2 = true ∧
      ∀ (reply : Option Reply) (L : ℚ),
        get_volume (workerExited (shutdown_volume_controller ⟨some (), true, 1, 1⟩).1) reply =
          .error .sendFailed ∧
        set_volume (workerExited (shutdown_volume_controller ⟨some (), true, 1, 1⟩).1) L reply =
          .error .sendFailed ∧
        volume_up (workerExited (shutdown_volume_controller ⟨some (), true, 1, 1⟩).1) reply =
          .error .sendFailed ∧
        volume_down (workerExited (shutdown_volume_controller ⟨some (), true, 1, 1⟩).1) reply =
          .error .sendFailed) :=
  ⟨by decide, post_shutdown_fails_amended ⟨some (), true, 1, 1⟩ (by decide)⟩

/-- C6: `send_command` fails with the not-initialized error exactly when no
sending half is stored; with the send-failed error exactly when a sender is
stored but the receiving half is gone; with the receive-failed error
exactly when the reply channel was dropped before a reply; and otherwise it
returns the worker's reply verbatim. The hypothesis restricts the modelled
reply to those the worker can actually send (`Ok` or a wrapped native
failure), which never coincide with the three channel errors. -/
theorem send_command_error_taxonomy (s : FacadeState) (reply : Option Reply)
    (hw : ∀ r, reply = some r → workerProducible r = true) :
    (send_command s reply = .error .notInitialized ↔ s.sender = none) ∧
    (send_command s reply = .error .sendFailed ↔
      s.sender.isSome = true ∧ s.receiverAlive = false) ∧
    (send_command s reply = .error .recvFailed ↔
      s.sender.isSome = true ∧ s.receiverAlive = true ∧ reply = none) ∧
    (∀ r, reply = some r → s.sender.isSome = true → s.receiverAlive = true →
      send_command s reply = r) := by
  rcases s with ⟨sender, alive, ch, wk⟩
  rcases sender with _ | u
  · simp [send_command]
  · cases alive
    · simp [send_command]
    · rcases reply with _ | r
      · simp [send_command]
      · have hr := hw r rfl
        rcases r with e | v
        · cases e <;> simp_all [send_command, workerProducible]
        · simp [send_command]

theorem send_command_error_taxonomy_witness :
    (∀ r, (none : Option Reply) = some r → workerProducible r = true) ∧
    ((send_command initialState none = .error .notInitialized ↔
        initialState.sender = none) ∧
      (send_command initialState none = .error .sendFailed ↔
        initialState.sender.isSome = true ∧ initialState.receiverAlive = false) ∧
      (send_command initialState none = .error .recvFailed ↔
        initialState.sender.isSome = true ∧ initialState.receiverAlive = true ∧
          (none : Option Reply) = none) ∧
      (∀ r, (none : Option Reply) = some r → initialState.sender.isSome = true →
        initialState.receiverAlive = true → send_command initialState none = r)) :=
  ⟨(fun _r h => nomatch h),
   send_command_error_taxonomy initialState none (fun _r h => nomatch h)⟩

/-- C8: on every exit path of the Windows worker thread after a successful
`CoInitializeEx` — endpoint-acquisition failure, an explicit `Shutdown`
command, or channel closure (end of the delivered command sequence) —
`CoUninitialize` runs exactly once before the thread terminates; after a
failed `CoInitializeEx` it never runs. So the worker never terminates
without releasing and never releases twice. (The endpoint COM handle
itself is dropped by Rust ownership when the thread returns.) -/
theorem com_uninit_exactly_once (comOk epOk : Bool) (ep : Endpoint)
    (cmds : List VolumeCommand) :
    (volume_worker_thread comOk epOk ep cmds).coUninitCalls =
      (if comOk then 1 else 0) ∧
    (volume_worker_thread comOk epOk ep cmds).comInitOk = comOk := by
  cases comOk <;> cases epOk <;> simp [volume_worker_thread]

/-- C9 counterexample: on a non-Windows platform the stub worker replies to
nothing and makes no native call, and a `get_volume` issued after `init`
(once the stub has returned and dropped the receiver) fails with the
generic send-failed channel error — whose message is the generic channel
message, not the stub's unsupported log line — rather than with an error
reporting the operation as unsupported. -/
theorem nonwindows_error_not_unsupported_cx :
    (volume_worker_thread_nonWindows [VolumeCommand.getVolume]).replies = [] ∧
    (volume_worker_thread_nonWindows [VolumeCommand.getVolume]).nativeCalls = 0 ∧
    get_volume (workerExited (init_volume_controller initialState)) none =
      .error .sendFailed ∧
    ControlError.sendFailed.message = "Failed to send command to volume controller" ∧
    ControlError.sendFailed.message ≠
      (volume_worker_thread_nonWindows [VolumeCommand.getVolume]).logged := by
  refine ⟨rfl, rfl, rfl, rfl, ?_⟩
  decide

/-- C9 (amended): on non-Windows platforms the worker is a stub that only
logs an unsupported message and returns at once — it attempts no native
call and sends no reply — so each of `get_volume`, `set_volume`,
`volume_up` and `volume_down` called after `init` fails with the
send-failed channel error (the receiver was dropped when the stub
returned), not with an unsupported-specific error. -/
theorem nonwindows_stub_amended :
    (∀ cmds : List VolumeCommand,
      (volume_worker_thread_nonWindows cmds).replies = [] ∧
      (volume_worker_thread_nonWindows cmds).nativeCalls = 0 ∧
      (volume_worker_thread_nonWindows cmds).logged =
        "[VolumeController] Volume control is only supported on Windows") ∧
    (∀ (reply : Option Reply) (L : ℚ),
      get_volume (workerExited (init_volume_controller initialState)) reply =
        .error .sendFailed ∧
      set_volume (workerExited (init_volume_controller initialState)) L reply =
        .error .sendFailed ∧
      volume_up (workerExited (init_volume_controller initialState)) reply =
        .error .sendFailed ∧
      volume_down (workerExited (init_volume_controller initialState)) reply =
        .error .sendFailed) := by
  refine ⟨fun cmds => ⟨rfl, rfl, rfl⟩, fun reply L => ?_⟩
  simp [get_volume, set_volume, volume_up, volume_down, send_command,
    workerExited, init_volume_controller, initialState]

/-- C10: once a sending half is stored in the process-wide state it is
never removed — `shutdown_volume_controller` leaves it in place and a
worker exit (whether from a failed native initialization or after
`Shutdown`) does not touch it — so every later `init_volume_controller`
call is a no-op (no new channel, no new worker) and the controller can
never be restarted within the process. -/
theorem sender_sticky_noop (s : FacadeState) (h : s.sender.isSome = true) :
    init_volume_controller s = s ∧
    (shutdown_volume_controller s).1.sender = s.sender ∧
    (workerExited s).sender = s.sender ∧
    init_volume_controller (workerExited s) = workerExited s ∧
    init_volume_controller (workerExited (shutdown_volume_controller s).1) =
      workerExited (shutdown_volume_controller s).1 := by
  refine ⟨?_, rfl, rfl, ?_, ?_⟩ <;>
    simp [init_volume_controller, workerExited, shutdown_volume_controller, h]

theorem sender_sticky_noop_witness :
    ((⟨some (), false, 1, 1⟩ : FacadeState).sender.isSome = true) ∧
    (init_volume_controller ⟨some (), false, 1, 1⟩ = ⟨some (), false, 1, 1⟩ ∧
      (shutdown_volume_controller ⟨some (), false, 1, 1⟩).1.sender =
        (⟨some (), false, 1, 1⟩ : FacadeState).sender ∧
      (workerExited ⟨some (), false, 1, 1⟩).sender =
        (⟨some (), false, 1, 1⟩ : FacadeState).sender ∧
      init_volume_controller (workerExited ⟨some (), false, 1, 1⟩) =
        workerExited ⟨some (), false, 1, 1⟩ ∧
      init_volume_controller
          (workerExited (shutdown_volume_controller ⟨some (), false, 1, 1⟩).1) =
        workerExited (shutdown_volume_controller ⟨some (), false, 1, 1⟩).1) :=
  ⟨by decide, sender_sticky_noop ⟨some (), false, 1, 1⟩ (by decide)⟩

theorem processCommand_up_clean (C : ℚ) :
    processCommand ⟨C, []⟩ .volumeUp =
      (⟨min (C + 0.05) 1, []⟩, some (.ok (min (C + 0.05) 1)), true) := rfl

theorem processCommand_down_clean (C : ℚ) :
    processCommand ⟨C, []⟩ .volumeDown =
      (⟨max (C - 0.05) 0, []⟩, some (.ok (max (C - 0.05) 0)), true) := rfl

theorem workerLoop_cons_cont {ep ep' : Endpoint} {cmd : VolumeCommand}
    {rest : List VolumeCommand} {r : Reply}
    (h : processCommand ep cmd = (ep', some r, true)) :
    workerLoop ep (cmd :: rest) =
      ((workerLoop ep' rest).1, r :: (workerLoop ep' rest).2) := by
  simp [workerLoop, h]

theorem upLoop_at_one (n : ℕ) :
    workerLoop ⟨1, []⟩ (List.replicate n .volumeUp) =
      (⟨1, []⟩, List.replicate n (Except.ok 1)) := by
  induction n with
  | zero => rfl
  | succ k ih =>
    have h1 : min ((1:ℚ) + 0.05) 1 = 1 := by norm_num
    have hstep : processCommand ⟨1, []⟩ .volumeUp = (⟨1, []⟩, some (.ok 1), true) := by
      have h := processCommand_up_clean 1
      rw [h1] at h
      exact h
    simp only [List.replicate_succ]
    rw [workerLoop_cons_cont hstep, ih]

theorem downLoop_at_zero (n : ℕ) :
    workerLoop ⟨0, []⟩ (List.replicate n .volumeDown) =
      (⟨0, []⟩, List.replicate n (Except.ok 0)) := by
  induction n with
  | zero => rfl
  | succ k ih =>
    have h1 : max ((0:ℚ) - 0.05) 0 = 0 := by norm_num
    have hstep : processCommand ⟨0, []⟩ .volumeDown = (⟨0, []⟩, some (.ok 0), true) := by
      have h := processCommand_down_clean 0
      rw [h1] at h
      exact h
    simp only [List.replicate_succ]
    rw [workerLoop_cons_cont hstep, ih]

/-- C1: for every current level `C` read from the native endpoint (native
calls succeeding), a `VolumeUp` command applies and replies
`min(C + 0.05, 1)` and a `VolumeDown` command applies and replies
`max(C - 0.05, 0)`; at level 1 any number of repeated `VolumeUp` commands
keeps replying `Ok 1`, and at level 0 repeated `VolumeDown` keeps replying
`Ok 0` — the boundary calls succeed rather than error. -/
theorem volume_step_arithmetic :
    (∀ C : ℚ,
      processCommand ⟨C, []⟩ .volumeUp =
        (⟨min (C + 0.05) 1, []⟩, some (.ok (min (C + 0.05) 1)), true) ∧
      processCommand ⟨C, []⟩ .volumeDown =
        (⟨max (C - 0.05) 0, []⟩, some (.ok (max (C - 0.05) 0)), true)) ∧
    (∀ n : ℕ,
      (workerLoop ⟨1, []⟩ (List.replicate n .volumeUp)).2 =
        List.replicate n (Except.ok 1) ∧
      (workerLoop ⟨0, []⟩ (List.replicate n .volumeDown)).2 =
        List.replicate n (Except.ok 0)) :=
  ⟨fun C => ⟨processCommand_up_clean C, processCommand_down_clean C⟩,
   fun n => ⟨by rw [upLoop_at_one], by rw [downLoop_at_zero]⟩⟩

/-- C2: for every requested level `L` (and every current native level `C`,
native call succeeding), `SetVolume(L)` applies and replies the Rust clamp
of `L` to `[0, 1]`, which agrees with `min(max(L, 0), 1)`; in particular
`set_volume 1.5` applies and replies 1 and `set_volume (-0.2)` applies and
replies 0. -/
theorem set_volume_clamps :
    (∀ C L : ℚ,
      processCommand ⟨C, []⟩ (.setVolume L) =
        (⟨rustClamp L 0 1, []⟩, some (.ok (rustClamp L 0 1)), true)) ∧
    (∀ L : ℚ, rustClamp L 0 1 = min (max L 0) 1) ∧
    processCommand ⟨1/2, []⟩ (.setVolume 1.5) = (⟨1, []⟩, some (.ok 1), true) ∧
    processCommand ⟨1/2, []⟩ (.setVolume (-0.2)) = (⟨0, []⟩, some (.ok 0), true) := by
  refine ⟨fun C L => rfl, rustClamp_eq_min_max, ?_, ?_⟩
  · have h : rustClamp 1.5 0 1 = 1 := by norm_num [rustClamp]
    calc processCommand ⟨1/2, []⟩ (.setVolume 1.5)
        = (⟨rustClamp 1.5 0 1, []⟩, some (.ok (rustClamp 1.5 0 1)), true) := rfl
      _ = (⟨1, []⟩, some (.ok 1), true) := by rw [h]
  · have h : rustClamp (-0.2) 0 1 = 0 := by norm_num [rustClamp]
    calc processCommand ⟨1/2, []⟩ (.setVolume (-0.2))
        = (⟨rustClamp (-0.2) 0 1, []⟩, some (.ok (rustClamp (-0.2) 0 1)), true) := rfl
      _ = (⟨0, []⟩, some (.ok 0), true) := by rw [h]

/-- C3 counterexample: if the native endpoint reports the out-of-range
scalar 3/2, the worker's `GetVolume` handler replies exactly 3/2 — the
read-back value is returned to the caller unclamped, contradicting the
claim that every returned value is clamped to `[0, 1]` for every input,
including the value read back by `get_volume`. -/
theorem get_volume_unclamped_cx :
    processCommand ⟨3/2, []⟩ .getVolume = (⟨3/2, []⟩, some (.ok (3/2)), true) ∧
    ¬ ((3:ℚ)/2 ≤ 1) :=
  ⟨rfl, by norm_num⟩

theorem processCommand_nonshutdown (ep : Endpoint) (cmd : VolumeCommand)
    (h : cmd ≠ .shutdown) :
    ∃ r : Reply, (processCommand ep cmd).2.1 = some r ∧ (processCommand ep cmd).2.2 = true := by
  cases cmd with
  | shutdown => exact absurd rfl h
  | getVolume =>
    rcases ep with ⟨lvl, _ | ⟨_ | e, rest⟩⟩ <;> exact ⟨_, rfl, rfl⟩
  | setVolume L =>
    rcases ep with ⟨lvl, _ | ⟨_ | e, rest⟩⟩ <;> exact ⟨_, rfl, rfl⟩
  | volumeUp =>
    rcases ep with ⟨lvl, _ | ⟨_ | e, _ | ⟨_ | e2, rest⟩⟩⟩ <;> exact ⟨_, rfl, rfl⟩
  | volumeDown =>
    rcases ep with ⟨lvl, _ | ⟨_ | e, _ | ⟨_ | e2, rest⟩⟩⟩ <;> exact ⟨_, rfl, rfl⟩

theorem repliesExpected_cons (cmd : VolumeCommand) (rest : List VolumeCommand)
    (h : cmd ≠ .shutdown) :
    repliesExpected (cmd :: rest) = repliesExpected rest + 1 := by
  cases cmd <;> first | rfl | exact absurd rfl h

theorem workerLoop_length (cmds : List VolumeCommand) :
    ∀ ep : Endpoint, (workerLoop ep cmds).2.length = repliesExpected cmds := by
  induction cmds with
  | nil => intro ep; rfl
  | cons cmd rest ih =>
    intro ep
    by_cases h : cmd = .shutdown
    · subst h
      simp [workerLoop, processCommand, repliesExpected]
    · obtain ⟨r, hr, hc⟩ := processCommand_nonshutdown ep cmd h
      have hp : processCommand ep cmd = ((processCommand ep cmd).1, some r, true) := by
        rcases hq : processCommand ep cmd with ⟨ep', reply, cont⟩
        rw [hq] at hr hc
        simp only at hr hc
        rw [hr, hc]
      rw [workerLoop_cons_cont hp, repliesExpected_cons cmd rest h]
      simp [ih]

/-- C7: for every non-`Shutdown` command the worker processes, it sends
exactly one reply on that command's reply channel and the loop continues —
including when the underlying native call fails, whose error is wrapped
into the reply for that command only; consequently, for every command
sequence and every native-outcome schedule, the worker sends exactly one
reply per command preceding the first `Shutdown`. (The source discards the
result of `response_tx.send`, so a failed reply delivery has no effect on
the worker: delivery is not modelled as an input to the loop at all.) -/
theorem worker_reply_discipline :
    (∀ (ep : Endpoint) (cmd : VolumeCommand), cmd ≠ .shutdown →
      (processCommand ep cmd).2.1.isSome = true ∧ (processCommand ep cmd).2.2 = true) ∧
    (∀ (ep : Endpoint) (cmds : List VolumeCommand),
      (workerLoop ep cmds).2.length = repliesExpected cmds) := by
  constructor
  · intro ep cmd h
    obtain ⟨r, hr, hc⟩ := processCommand_nonshutdown ep cmd h
    exact ⟨by rw [hr]; rfl, hc⟩
  · intro ep cmds
    exact workerLoop_length cmds ep

theorem worker_reply_discipline_witness :
    (VolumeCommand.getVolume ≠ VolumeCommand.shutdown) ∧
    ((processCommand ⟨1/2, []⟩ .getVolume).2.1.isSome = true ∧
      (processCommand ⟨1/2, []⟩ .getVolume).2.2 = true) :=
  ⟨by decide, worker_reply_discipline.1 ⟨1/2, []⟩ .getVolume (by decide)⟩

theorem processCommand_bounds (lvl : ℚ) (sch : List (Option String)) (cmd : VolumeCommand)
    (h0 : 0 ≤ lvl) (h1 : lvl ≤ 1) :
    (0 ≤ (processCommand ⟨lvl, sch⟩ cmd).1.level ∧
      (processCommand ⟨lvl, sch⟩ cmd).1.level ≤ 1) ∧
    (∀ v : ℚ, (processCommand ⟨lvl, sch⟩ cmd).2.1 = some (.ok v) → 0 ≤ v ∧ v ≤ 1) := by
  have hup : 0 ≤ min (lvl + 0.05) 1 ∧ min (lvl + 0.05) 1 ≤ 1 :=
    ⟨le_min (by linarith) (by norm_num), min_le_right _ _⟩
  have hdn : 0 ≤ max (lvl - 0.05) 0 ∧ max (lvl - 0.05) 0 ≤ 1 :=
    ⟨le_max_right _ _, max_le (by linarith) (by norm_num)⟩
  cases cmd with
  | getVolume =>
    rcases sch with _ | ⟨_ | e, rest⟩
    · refine ⟨⟨h0, h1⟩, fun v hv => ?_⟩
      simp [processCommand, getMasterVolumeLevelScalar, Except.mapError, Except.map] at hv
      subst hv
      exact ⟨h0, h1⟩
    · refine ⟨⟨h0, h1⟩, fun v hv => ?_⟩
      simp [processCommand, getMasterVolumeLevelScalar, Except.mapError, Except.map] at hv
      subst hv
      exact ⟨h0, h1⟩
    · refine ⟨⟨h0, h1⟩, fun v hv => ?_⟩
      simp [processCommand, getMasterVolumeLevelScalar, Except.mapError, Except.map] at hv
  | setVolume L =>
    rcases sch with _ | ⟨_ | e, rest⟩
    · refine ⟨rustClamp_mem L, fun v hv => ?_⟩
      simp [processCommand, setMasterVolumeLevelScalar, Except.mapError, Except.map] at hv
      subst hv
      exact rustClamp_mem L
    · refine ⟨rustClamp_mem L, fun v hv => ?_⟩
      simp [processCommand, setMasterVolumeLevelScalar, Except.mapError, Except.map] at hv
      subst hv
      exact rustClamp_mem L
    · refine ⟨⟨h0, h1⟩, fun v hv => ?_⟩
      simp [processCommand, setMasterVolumeLevelScalar, Except.mapError, Except.map] at hv
  | volumeUp =>
    rcases sch with _ | ⟨_ | e, _ | ⟨_ | e2, rest2⟩⟩
    · refine ⟨hup, fun v hv => ?_⟩
      simp [processCommand, getMasterVolumeLevelScalar, setMasterVolumeLevelScalar,
        Except.mapError, Except.map] at hv
      subst hv
      exact hup
    · refine ⟨hup, fun v hv => ?_⟩
      simp [processCommand, getMasterVolumeLevelScalar, setMasterVolumeLevelScalar,
        Except.mapError, Except.map] at hv
      subst hv
      exact hup
    · refine ⟨hup, fun v hv => ?_⟩
      simp [processCommand, getMasterVolumeLevelScalar, setMasterVolumeLevelScalar,
        Except.mapError, Except.map] at hv
      subst hv
      exact hup
    · refine ⟨⟨h0, h1⟩, fun v hv => ?_⟩
      simp [processCommand, getMasterVolumeLevelScalar, setMasterVolumeLevelScalar,
        Except.mapError, Except.map] at hv
    · refine ⟨⟨h0, h1⟩, fun v hv => ?_⟩
      simp [processCommand, getMasterVolumeLevelScalar, setMasterVolumeLevelScalar,
        Except.mapError, Except.map] at hv
    · refine ⟨⟨h0, h1⟩, fun v hv => ?_⟩
      simp [processCommand, getMasterVolumeLevelScalar, setMasterVolumeLevelScalar,
        Except.mapError, Except.map] at hv
    · refine ⟨⟨h0, h1⟩, fun v hv => ?_⟩
      simp [processCommand, getMasterVolumeLevelScalar, setMasterVolumeLevelScalar,
        Except.mapError, Except.map] at hv
  | volumeDown =>
    rcases sch with _ | ⟨_ | e, _ | ⟨_ | e2, rest2⟩⟩
    · refine ⟨hdn, fun v hv => ?_⟩
      simp [processCommand, getMasterVolumeLevelScalar, setMasterVolumeLevelScalar,
        Except.mapError, Except.map] at hv
      subst hv
      exact hdn
    · refine ⟨hdn, fun v hv => ?_⟩
      simp [processCommand, getMasterVolumeLevelScalar, setMasterVolumeLevelScalar,
        Except.mapError, Except.map] at hv
      subst hv
      exact hdn
    · refine ⟨hdn, fun v hv => ?_⟩
      simp [processCommand, getMasterVolumeLevelScalar, setMasterVolumeLevelScalar,
        Except.mapError, Except.map] at hv
      subst hv
      exact hdn
    · refine ⟨⟨h0, h1⟩, fun v hv => ?_⟩
      simp [processCommand, getMasterVolumeLevelScalar, setMasterVolumeLevelScalar,
        Except.mapError, Except.map] at hv
    · refine ⟨⟨h0, h1⟩, fun v hv => ?_⟩
      simp [processCommand, getMasterVolumeLevelScalar, setMasterVolumeLevelScalar,
        Except.mapError, Except.map] at hv
    · refine ⟨⟨h0, h1⟩, fun v hv => ?_⟩
      simp [processCommand, getMasterVolumeLevelScalar, setMasterVolumeLevelScalar,
        Except.mapError, Except.map] at hv
    · refine ⟨⟨h0, h1⟩, fun v hv => ?_⟩
      simp [processCommand, getMasterVolumeLevelScalar, setMasterVolumeLevelScalar,
        Except.mapError, Except.map] at hv
  | shutdown =>
    exact ⟨⟨h0, h1⟩, fun v hv => by simp [processCommand] at hv⟩

theorem workerLoop_bounds (cmds : List VolumeCommand) :
    ∀ ep : Endpoint, 0 ≤ ep.level → ep.level ≤ 1 →
      (0 ≤ (workerLoop ep cmds).1.level ∧ (workerLoop ep cmds).1.level ≤ 1) ∧
      ∀ v : ℚ, Except.ok v ∈ (workerLoop ep cmds).2 → 0 ≤ v ∧ v ≤ 1 := by
  induction cmds with
  | nil =>
    intro ep h0 h1
    exact ⟨⟨h0, h1⟩, fun v hv => by simp [workerLoop] at hv⟩
  | cons cmd rest ih =>
    rintro ⟨lvl, sch⟩ h0 h1
    have hpc := processCommand_bounds lvl sch cmd h0 h1
    rcases hp : processCommand ⟨lvl, sch⟩ cmd with ⟨ep', reply, cont⟩
    rw [hp] at hpc
    cases cont with
    | false =>
      have hw : workerLoop ⟨lvl, sch⟩ (cmd :: rest) = (ep', reply.toList) := by
        simp [workerLoop, hp]
      rw [hw]
      refine ⟨hpc.1, fun v hv => ?_⟩
      rcases reply with _ | r
      · simp at hv
      · simp at hv
        have hr : some r = some (Except.ok v) := by rw [hv]
        exact hpc.2 v hr
    | true =>
      have hw : workerLoop ⟨lvl, sch⟩ (cmd :: rest) =
          ((workerLoop ep' rest).1, reply.toList ++ (workerLoop ep' rest).2) := by
        simp [workerLoop, hp]
      rw [hw]
      have hih := ih ep' hpc.1.1 hpc.1.2
      refine ⟨hih.1, fun v hv => ?_⟩
      rcases List.mem_append.mp hv with hv1 | hv2
      · rcases reply with _ | r
        · simp at hv1
        · simp at hv1
          have hr : some r = some (Except.ok v) := by rw [hv1]
          exact hpc.2 v hr
      · exact hih.2 v hv2

/-- C3 (amended): the values the worker applies to the native endpoint are
always clamped into `[0, 1]` (`SetVolume` clamps both sides, `VolumeUp`
caps at 1, `VolumeDown` floors at 0), so provided the level read back from
the native endpoint lies in `[0, 1]` — the native API's contract, which the
code does not re-clamp — every level applied and every successful reply
value over any command sequence lies in `[0, 1]`. `GetVolume` returns the
native read-back value without clamping it (see the counterexample). -/
theorem level_invariant_amended (ep : Endpoint) (cmds : List VolumeCommand)
    (h0 : 0 ≤ ep.level) (h1 : ep.level ≤ 1) :
    (0 ≤ (workerLoop ep cmds).1.level ∧ (workerLoop ep cmds).1.level ≤ 1) ∧
    ∀ v : ℚ, Except.ok v ∈ (workerLoop ep cmds).2 → 0 ≤ v ∧ v ≤ 1 :=
  workerLoop_bounds cmds ep h0 h1

theorem level_invariant_amended_witness :
    (0 ≤ ((1:ℚ)/2) ∧ ((1:ℚ)/2) ≤ 1) ∧
    ((0 ≤ (workerLoop ⟨1/2, []⟩ [.volumeUp]).1.level ∧
        (workerLoop ⟨1/2, []⟩ [.volumeUp]).1.level ≤ 1) ∧
      ∀ v : ℚ, Except.ok v ∈ (workerLoop ⟨1/2, []⟩ [.volumeUp]).2 → 0 ≤ v ∧ v ≤ 1) :=
  ⟨⟨by norm_num, by norm_num⟩,
   level_invariant_amended ⟨1/2, []⟩ [.volumeUp] (by norm_num) (by norm_num)⟩
